import Mathlib

/-!
Formal model of the after-hours extreme-move fade bot.

The strategy layer (`bot/strategies.py`) consists of pure functions over
prices and account figures; they are embedded here over `ℚ`, with Python's
`int()` truncation modelled explicitly and Python strings of explanatory
text replaced by a `Reason` tag per return site.  The state layer
(`bot/state_manager.py`) excursion tracker and cross-session performance
ledger are embedded as explicit state-passing functions over structures.
-/

/-- Trade direction; Python uses the strings "long" and "short", and every
branch tests `direction == "long"` with an `else` covering "short". -/
inductive Direction
  | long
  | short
  deriving DecidableEq

/-- One tag per distinct reason string produced by the strategy functions
(the embedded model drops the interpolated numbers of the Python messages). -/
inductive Reason
  | invalidPriceData
  | maxPositions
  | fridayDipFade
  | fridayBelowThreshold
  | fadeUp
  | fadeDown
  | withinBand
  | noEntryPrice
  | hardStop
  | pnlReport
  | belowCeiling
  | spreadWaitForOpen
  | volumeWaitForOpen
  | profitCeilingMet
  | sessionEndExit
  | noPosition
  deriving DecidableEq

/-- `config.EXTREME_MOVE_PCT = 0.07`. -/
def EXTREME_MOVE_PCT : ℚ := 7 / 100

/-- `config.HARD_STOP_PCT = 0.05`. -/
def HARD_STOP_PCT : ℚ := 5 / 100

/-- `config.PROFIT_CEILING_PCT = 0.025`. -/
def PROFIT_CEILING_PCT : ℚ := 25 / 1000

/-- `config.PROFIT_EXIT_MAX_SPREAD_PCT = 0.004`. -/
def PROFIT_EXIT_MAX_SPREAD_PCT : ℚ := 4 / 1000

/-- `config.PROFIT_EXIT_MIN_VOLUME = 100`. -/
def PROFIT_EXIT_MIN_VOLUME : ℚ := 100

/-- `config.RISK_PER_TRADE_PCT = 0.02`. -/
def RISK_PER_TRADE_PCT : ℚ := 2 / 100

/-- `config.MAX_CONCURRENT_POSITIONS = 3`. -/
def MAX_CONCURRENT_POSITIONS : ℕ := 3

/-- `config.ASSUMED_FRICTION_PCT = 0.005`. -/
def ASSUMED_FRICTION_PCT : ℚ := 5 / 1000

/-- Python's `int()` conversion of a float: truncation toward zero. -/
def pyInt (q : ℚ) : ℤ :=
  if 0 ≤ q then ⌊q⌋ else -⌊-q⌋

/-- The direction-normalized P&L fraction, the snippet repeated in
`check_hard_stop`, `check_profit_ceiling` and `evaluate_morning_exit`:
`(current - entry) / entry` for longs, `(entry - current) / entry` for shorts. -/
def direction_pnl (entry_price current_price : ℚ) : Direction → ℚ
  | .long => (current_price - entry_price) / entry_price
  | .short => (entry_price - current_price) / entry_price

/-- `strategies.evaluate_entry_signal`: decide whether an extreme
after-hours move warrants a fade entry.  Returns
`(should_enter, direction, reason)`. -/
def evaluate_entry_signal (symbol : String) (anchor_close current_price : ℚ)
    (is_friday : Bool) (active_positions_count : ℕ) :
    Bool × Option Direction × Reason :=
  if anchor_close ≤ 0 ∨ current_price ≤ 0 then
    (false, none, .invalidPriceData)
  else if active_positions_count ≥ MAX_CONCURRENT_POSITIONS then
    (false, none, .maxPositions)
  else
    let move_pct := (current_price - anchor_close) / anchor_close
    let threshold := EXTREME_MOVE_PCT
    if is_friday then
      if move_pct ≤ -threshold then (true, some .long, .fridayDipFade)
      else (false, none, .fridayBelowThreshold)
    else
      if move_pct ≥ threshold then (true, some .short, .fadeUp)
      else if move_pct ≤ -threshold then (true, some .long, .fadeDown)
      else (false, none, .withinBand)

/-- `strategies.compute_position_size`: share quantity from the risk-based
constraint and, for longs only, the cash-allocation constraint; Python's
final `int(...)` truncation and `max(qty, 0)` are modelled exactly. -/
def compute_position_size (equity entry_price : ℚ) (direction : Direction)
    (available_cash : ℚ) (slots_remaining : ℤ) : ℤ :=
  if entry_price ≤ 0 ∨ equity ≤ 0 ∨ slots_remaining ≤ 0 then 0
  else
    let risk_dollars := equity * RISK_PER_TRADE_PCT
    let max_loss_per_share := entry_price * HARD_STOP_PCT
    if max_loss_per_share ≤ 0 then 0
    else
      let qty_risk := risk_dollars / max_loss_per_share
      match direction with
      | .long =>
          let cash_per_slot := available_cash / (slots_remaining : ℚ)
          if cash_per_slot ≤ 0 then 0
          else
            let qty_cash := cash_per_slot / entry_price
            max (pyInt (min qty_risk qty_cash)) 0
      | .short =>
          max (pyInt qty_risk) 0

/-- `strategies.check_hard_stop`: `(stopped, pnl_pct, reason)`. -/
def check_hard_stop (entry_price current_price : ℚ) (direction : Direction) :
    Bool × ℚ × Reason :=
  if entry_price ≤ 0 then (false, 0, .noEntryPrice)
  else
    let pnl_pct := direction_pnl entry_price current_price direction
    if pnl_pct ≤ -HARD_STOP_PCT then (true, pnl_pct, .hardStop)
    else (false, pnl_pct, .pnlReport)

/-- The Python guard `spread_pct is not None and spread_pct > PROFIT_EXIT_MAX_SPREAD_PCT`. -/
def spread_too_wide : Option ℚ → Bool
  | none => false
  | some s => PROFIT_EXIT_MAX_SPREAD_PCT < s

/-- The Python guard `recent_volume is not None and recent_volume < PROFIT_EXIT_MIN_VOLUME`. -/
def volume_too_low : Option ℚ → Bool
  | none => false
  | some v => v < PROFIT_EXIT_MIN_VOLUME

/-- `strategies.check_profit_ceiling`: `(take_profit, pnl_pct, reason)`;
`spread_pct` and `recent_volume` are `None`-able liquidity signals. -/
def check_profit_ceiling (entry_price current_price : ℚ) (direction : Direction)
    (spread_pct : Option ℚ) (recent_volume : Option ℚ) : Bool × ℚ × Reason :=
  if entry_price ≤ 0 then (false, 0, .noEntryPrice)
  else
    let pnl_pct := direction_pnl entry_price current_price direction
    if pnl_pct < PROFIT_CEILING_PCT then (false, pnl_pct, .belowCeiling)
    else if spread_too_wide spread_pct then
      (false, pnl_pct, .spreadWaitForOpen)
    else if volume_too_low recent_volume then
      (false, pnl_pct, .volumeWaitForOpen)
    else
      (true, pnl_pct, .profitCeilingMet)

/-- `strategies.evaluate_overnight_management`: hard stop first, then
profit ceiling.  Returns `(should_exit, pnl_pct, reason)`. -/
def evaluate_overnight_management (entry_price current_price : ℚ)
    (direction : Direction) (spread_pct : Option ℚ) (recent_volume : Option ℚ) :
    Bool × ℚ × Reason :=
  let stop := check_hard_stop entry_price current_price direction
  if stop.1 then (true, stop.2.1, stop.2.2)
  else
    let tp := check_profit_ceiling entry_price current_price direction
      spread_pct recent_volume
    if tp.1 then (true, tp.2.1, tp.2.2)
    else (false, tp.2.1, tp.2.2)

/-- `strategies.evaluate_morning_exit`: `(action, pnl_pct, reason)`, with
the action the literal Python string `"close"` or `"none"`. -/
def evaluate_morning_exit (entry_price current_price : ℚ)
    (direction : Direction) : String × ℚ × Reason :=
  if entry_price ≤ 0 then ("none", 0, .noPosition)
  else
    let pnl_pct := direction_pnl entry_price current_price direction
    ("close", pnl_pct, .sessionEndExit)

/-- The fields of an active-position record as created by
`main.phase_monitor_and_enter` (timestamps and tag strings omitted); the two
excursion fields start at `0.0` and are the only fields `update_excursions`
touches. -/
structure PositionInfo where
  direction : Direction
  entry_price : ℚ
  qty : ℤ
  anchor_close : ℚ
  max_favorable_pnl : ℚ
  max_adverse_pnl : ℚ
  deriving DecidableEq

/-- `state_manager.update_excursions`: raise `max_favorable_pnl` when the
current P&L exceeds it, lower `max_adverse_pnl` when the current P&L is
below it (the Python function mutates the dict in place; here the updated
record is returned). -/
def update_excursions (position_info : PositionInfo) (current_pnl_pct : ℚ) :
    PositionInfo :=
  let p1 := if current_pnl_pct > position_info.max_favorable_pnl then
      { position_info with max_favorable_pnl := current_pnl_pct }
    else position_info
  if current_pnl_pct < p1.max_adverse_pnl then
    { p1 with max_adverse_pnl := current_pnl_pct }
  else p1

/-- A sequence of `update_excursions` calls on one position record, one per
management cycle, fed the successive P&L readings. -/
def run_excursions (position_info : PositionInfo) (pnls : List ℚ) : PositionInfo :=
  pnls.foldl update_excursions position_info

/-- One entry of the bounded `session_log`; an empty session's entry carries
no `symbols` key, modelled as `none`. -/
structure SessionLogEntry where
  date : String
  trades : ℕ
  net_pnl_pct : ℚ
  net_pnl_dollars : ℚ
  symbols : Option (List String)

/-- The running cross-session totals document
(`state_manager.DEFAULT_PERFORMANCE` without the timestamp field);
`win_sum`/`loss_sum` model the internal `_win_sum`/`_loss_sum` keys. -/
structure Performance where
  total_sessions : ℕ
  sessions_with_trades : ℕ
  sessions_no_trades : ℕ
  total_trades : ℕ
  wins : ℕ
  losses : ℕ
  breakeven : ℕ
  long_trades : ℕ
  long_wins : ℕ
  short_trades : ℕ
  short_wins : ℕ
  total_net_pnl_pct : ℚ
  total_net_pnl_dollars : ℚ
  best_trade_pnl_pct : ℚ
  best_trade_symbol : Option String
  worst_trade_pnl_pct : ℚ
  worst_trade_symbol : Option String
  avg_win_pct : ℚ
  avg_loss_pct : ℚ
  avg_mfe_pct : ℚ
  avg_mae_pct : ℚ
  current_streak : ℤ
  best_streak : ℤ
  worst_streak : ℤ
  session_log : List SessionLogEntry
  win_sum : ℚ
  loss_sum : ℚ

/-- One closed trade's metrics as consumed by the ledger update; the
Python `.get(..., default)` fallbacks are taken as already applied. -/
structure TradeRec where
  symbol : String
  direction : Direction
  net_pnl_pct : ℚ
  entry_price : ℚ
  exit_price : ℚ
  qty : ℚ
  mfe : Option ℚ
  mae : Option ℚ

/-- Rounding half to even at integer precision, the idealized model of
Python's `round` on an exact value. -/
def round_half_even (q : ℚ) : ℤ :=
  if q - ⌊q⌋ < 1/2 then ⌊q⌋
  else if q - ⌊q⌋ > 1/2 then ⌊q⌋ + 1
  else if ⌊q⌋ % 2 = 0 then ⌊q⌋ else ⌊q⌋ + 1

/-- Python `round(x, 4)`. -/
def py_round4 (q : ℚ) : ℚ := (round_half_even (q * 10000) : ℚ) / 10000

/-- Python `round(x, 2)`. -/
def py_round2 (q : ℚ) : ℚ := (round_half_even (q * 100) : ℚ) / 100

/-- The `session_log` cap: `if len(log) > 30: log = log[-30:]`. -/
def trim_log (log : List SessionLogEntry) : List SessionLogEntry :=
  if log.length > 30 then log.drop (log.length - 30) else log

/-- The fold state of the `for trade in session_trades` loop in
`update_performance_after_session`. -/
structure PerfAcc where
  perf : Performance
  session_pnl_pct : ℚ
  session_pnl_dollars : ℚ
  win_pcts : List ℚ
  loss_pcts : List ℚ

/-- One iteration of the per-trade loop of
`state_manager.update_performance_after_session`. -/
def apply_trade (acc : PerfAcc) (trade : TradeRec) : PerfAcc :=
  let net_pnl := trade.net_pnl_pct
  let dollar_pnl := match trade.direction with
    | .long => (trade.exit_price - trade.entry_price) * trade.qty
    | .short => (trade.entry_price - trade.exit_price) * trade.qty
  let perf := acc.perf
  let perf := { perf with
    total_trades := perf.total_trades + 1,
    total_net_pnl_pct := perf.total_net_pnl_pct + net_pnl,
    total_net_pnl_dollars := perf.total_net_pnl_dollars + dollar_pnl }
  let perf :=
    if net_pnl > 1/10000 then
      { perf with wins := perf.wins + 1,
                  current_streak := max perf.current_streak 0 + 1 }
    else if net_pnl < -(1/10000) then
      { perf with losses := perf.losses + 1,
                  current_streak := min perf.current_streak 0 - 1 }
    else
      { perf with breakeven := perf.breakeven + 1 }
  let win_pcts :=
    if net_pnl > 1/10000 then acc.win_pcts ++ [net_pnl] else acc.win_pcts
  let loss_pcts :=
    if net_pnl < -(1/10000) then acc.loss_pcts ++ [net_pnl] else acc.loss_pcts
  let perf := match trade.direction with
    | .long => { perf with
        long_trades := perf.long_trades + 1,
        long_wins := if net_pnl > 1/10000 then perf.long_wins + 1 else perf.long_wins }
    | .short => { perf with
        short_trades := perf.short_trades + 1,
        short_wins := if net_pnl > 1/10000 then perf.short_wins + 1 else perf.short_wins }
  let perf := if net_pnl > perf.best_trade_pnl_pct then
      { perf with best_trade_pnl_pct := net_pnl, best_trade_symbol := some trade.symbol }
    else perf
  let perf := if net_pnl < perf.worst_trade_pnl_pct then
      { perf with worst_trade_pnl_pct := net_pnl, worst_trade_symbol := some trade.symbol }
    else perf
  let perf := match trade.mfe with
    | some mfe =>
        if perf.total_trades > 0 then
          { perf with avg_mfe_pct :=
              perf.avg_mfe_pct + (mfe - perf.avg_mfe_pct) / (perf.total_trades : ℚ) }
        else perf
    | none => perf
  let perf := match trade.mae with
    | some mae =>
        if perf.total_trades > 0 then
          { perf with avg_mae_pct :=
              perf.avg_mae_pct + (mae - perf.avg_mae_pct) / (perf.total_trades : ℚ) }
        else perf
    | none => perf
  ⟨perf, acc.session_pnl_pct + net_pnl, acc.session_pnl_dollars + dollar_pnl,
   win_pcts, loss_pcts⟩

/-- `state_manager.update_performance_after_session`, as a pure function of
the loaded performance document (the Python function loads the document,
mutates it and saves it back; `load/save` are I/O and elided). -/
def update_performance_after_session (session_date : String)
    (session_trades : List TradeRec) (perf0 : Performance) : Performance :=
  let perf := { perf0 with total_sessions := perf0.total_sessions + 1 }
  if session_trades.isEmpty then
    let empty_entry : SessionLogEntry :=
      { date := session_date, trades := 0, net_pnl_pct := 0,
        net_pnl_dollars := 0, symbols := none }
    { perf with
      sessions_no_trades := perf.sessions_no_trades + 1,
      session_log := trim_log (perf.session_log ++ [empty_entry]) }
  else
    let perf := { perf with sessions_with_trades := perf.sessions_with_trades + 1 }
    let acc := session_trades.foldl apply_trade ⟨perf, 0, 0, [], []⟩
    let perf := acc.perf
    let perf := { perf with
      best_streak := max perf.best_streak perf.current_streak,
      worst_streak := min perf.worst_streak perf.current_streak }
    let perf := { perf with
      win_sum := perf.win_sum + acc.win_pcts.foldl (· + ·) 0,
      loss_sum := perf.loss_sum + acc.loss_pcts.foldl (· + ·) 0 }
    let perf := if perf.wins > 0 then
        { perf with avg_win_pct := py_round4 (perf.win_sum / (perf.wins : ℚ)) }
      else perf
    let perf := if perf.losses > 0 then
        { perf with avg_loss_pct := py_round4 (perf.loss_sum / (perf.losses : ℚ)) }
      else perf
    let session_entry : SessionLogEntry :=
      { date := session_date, trades := session_trades.length,
        net_pnl_pct := py_round4 acc.session_pnl_pct,
        net_pnl_dollars := py_round2 acc.session_pnl_dollars,
        symbols := some (session_trades.map (·.symbol)) }
    let perf := { perf with
      session_log := trim_log (perf.session_log ++ [session_entry]) }
    { perf with
      total_net_pnl_pct := py_round4 perf.total_net_pnl_pct,
      total_net_pnl_dollars := py_round2 perf.total_net_pnl_dollars,
      avg_mfe_pct := py_round4 perf.avg_mfe_pct,
      avg_mae_pct := py_round4 perf.avg_mae_pct }

/-! Helper lemmas about Python integer truncation. -/

theorem pyInt_nonneg {q : ℚ} (h : 0 ≤ q) : 0 ≤ pyInt q := by
  rw [pyInt, if_pos h]
  exact Int.floor_nonneg.mpr h

theorem pyInt_le_self {q : ℚ} (h : 0 ≤ q) : (pyInt q : ℚ) ≤ q := by
  rw [pyInt, if_pos h]
  exact Int.floor_le q

theorem pyInt_mono {a b : ℚ} (h : a ≤ b) : pyInt a ≤ pyInt b := by
  by_cases h1 : 0 ≤ a
  · rw [pyInt, pyInt, if_pos h1, if_pos (le_trans h1 h)]
    exact Int.floor_le_floor h
  · by_cases h2 : 0 ≤ b
    · rw [pyInt, pyInt, if_neg h1, if_pos h2]
      have ha : -⌊-a⌋ ≤ 0 := by
        rw [neg_nonpos]
        exact Int.floor_nonneg.mpr (neg_nonneg.mpr (le_of_not_le h1))
      exact le_trans ha (Int.floor_nonneg.mpr h2)
    · rw [pyInt, pyInt, if_neg h1, if_neg h2]
      exact neg_le_neg (Int.floor_le_floor (neg_le_neg h))

/-! Closed-form evaluations of `compute_position_size` by branch. -/

theorem cps_guard_zero (e p : ℚ) (d : Direction) (c : ℚ) (s : ℤ)
    (h : p ≤ 0 ∨ e ≤ 0 ∨ s ≤ 0) :
    compute_position_size e p d c s = 0 := by
  rw [compute_position_size, if_pos h]

theorem cps_long_nocash (e p c : ℚ) (s : ℤ) (hp : 0 < p) (he : 0 < e)
    (hs : 0 < s) (hc : c / (s : ℚ) ≤ 0) :
    compute_position_size e p .long c s = 0 := by
  have hH : (0:ℚ) < HARD_STOP_PCT := by norm_num [HARD_STOP_PCT]
  simp only [compute_position_size]
  rw [if_neg (by push_neg; exact ⟨hp, he, hs⟩),
    if_neg (not_le.mpr (mul_pos hp hH)), if_pos hc]

theorem cps_long_eval (e p c : ℚ) (s : ℤ) (hp : 0 < p) (he : 0 < e)
    (hs : 0 < s) (hc : ¬ (c / (s : ℚ) ≤ 0)) :
    compute_position_size e p .long c s =
      max (pyInt (min (e * RISK_PER_TRADE_PCT / (p * HARD_STOP_PCT))
        (c / (s : ℚ) / p))) 0 := by
  have hH : (0:ℚ) < HARD_STOP_PCT := by norm_num [HARD_STOP_PCT]
  simp only [compute_position_size]
  rw [if_neg (by push_neg; exact ⟨hp, he, hs⟩),
    if_neg (not_le.mpr (mul_pos hp hH)), if_neg hc]

theorem cps_short_eval (e p c : ℚ) (s : ℤ) (hp : 0 < p) (he : 0 < e)
    (hs : 0 < s) :
    compute_position_size e p .short c s =
      max (pyInt (e * RISK_PER_TRADE_PCT / (p * HARD_STOP_PCT))) 0 := by
  have hH : (0:ℚ) < HARD_STOP_PCT := by norm_num [HARD_STOP_PCT]
  simp only [compute_position_size]
  rw [if_neg (by push_neg; exact ⟨hp, he, hs⟩),
    if_neg (not_le.mpr (mul_pos hp hH))]

theorem cps_nonneg (e p : ℚ) (d : Direction) (c : ℚ) (s : ℤ) :
    0 ≤ compute_position_size e p d c s := by
  cases d <;> simp only [compute_position_size] <;> split_ifs <;>
    first
      | exact le_refl 0
      | exact le_max_right _ _

theorem cps_mono_equity (p : ℚ) (d : Direction) (c : ℚ) (s : ℤ) {e1 e2 : ℚ}
    (h : e1 ≤ e2) :
    compute_position_size e1 p d c s ≤ compute_position_size e2 p d c s := by
  by_cases hg2 : p ≤ 0 ∨ e2 ≤ 0 ∨ s ≤ 0
  · have hg1 : p ≤ 0 ∨ e1 ≤ 0 ∨ s ≤ 0 := by
      rcases hg2 with h' | h' | h'
      · exact Or.inl h'
      · exact Or.inr (Or.inl (le_trans h h'))
      · exact Or.inr (Or.inr h')
    rw [cps_guard_zero e1 p d c s hg1, cps_guard_zero e2 p d c s hg2]
  · push_neg at hg2
    obtain ⟨hp, he2, hs⟩ := hg2
    by_cases he1 : e1 ≤ 0
    · rw [cps_guard_zero e1 p d c s (Or.inr (Or.inl he1))]
      exact cps_nonneg e2 p d c s
    · push_neg at he1
      have hR : (0:ℚ) ≤ RISK_PER_TRADE_PCT := by norm_num [RISK_PER_TRADE_PCT]
      have hH : (0:ℚ) < HARD_STOP_PCT := by norm_num [HARD_STOP_PCT]
      have hqr : e1 * RISK_PER_TRADE_PCT / (p * HARD_STOP_PCT) ≤
          e2 * RISK_PER_TRADE_PCT / (p * HARD_STOP_PCT) :=
        (div_le_div_iff_of_pos_right (mul_pos hp hH)).mpr
          (mul_le_mul_of_nonneg_right h hR)
      cases d with
      | long =>
          by_cases hc : c / (s : ℚ) ≤ 0
          · rw [cps_long_nocash e1 p c s hp he1 hs hc,
              cps_long_nocash e2 p c s hp he2 hs hc]
          · rw [cps_long_eval e1 p c s hp he1 hs hc,
              cps_long_eval e2 p c s hp he2 hs hc]
            exact max_le_max (pyInt_mono (min_le_min hqr (le_refl _))) (le_refl 0)
      | short =>
          rw [cps_short_eval e1 p c s hp he1 hs, cps_short_eval e2 p c s hp he2 hs]
          exact max_le_max (pyInt_mono hqr) (le_refl 0)

theorem cps_anti_price (e : ℚ) (d : Direction) (c : ℚ) (s : ℤ) {p1 p2 : ℚ}
    (hp1 : 0 < p1) (h : p1 ≤ p2) :
    compute_position_size e p2 d c s ≤ compute_position_size e p1 d c s := by
  have hp2 : 0 < p2 := lt_of_lt_of_le hp1 h
  by_cases hg : e ≤ 0 ∨ s ≤ 0
  · have hg1 : p1 ≤ 0 ∨ e ≤ 0 ∨ s ≤ 0 := Or.inr hg
    have hg2 : p2 ≤ 0 ∨ e ≤ 0 ∨ s ≤ 0 := Or.inr hg
    rw [cps_guard_zero e p1 d c s hg1, cps_guard_zero e p2 d c s hg2]
  · push_neg at hg
    obtain ⟨he, hs⟩ := hg
    have hR : (0:ℚ) ≤ RISK_PER_TRADE_PCT := by norm_num [RISK_PER_TRADE_PCT]
    have hH : (0:ℚ) < HARD_STOP_PCT := by norm_num [HARD_STOP_PCT]
    have hd : p1 * HARD_STOP_PCT ≤ p2 * HARD_STOP_PCT :=
      mul_le_mul_of_nonneg_right h (le_of_lt hH)
    have hqr : e * RISK_PER_TRADE_PCT / (p2 * HARD_STOP_PCT) ≤
        e * RISK_PER_TRADE_PCT / (p1 * HARD_STOP_PCT) :=
      div_le_div_of_nonneg_left (mul_nonneg (le_of_lt he) hR) (mul_pos hp1 hH) hd
    cases d with
    | long =>
        by_cases hc : c / (s : ℚ) ≤ 0
        · rw [cps_long_nocash e p1 c s hp1 he hs hc,
            cps_long_nocash e p2 c s hp2 he hs hc]
        · push_neg at hc
          have hqc : c / (s : ℚ) / p2 ≤ c / (s : ℚ) / p1 :=
            div_le_div_of_nonneg_left (le_of_lt hc) hp1 h
          rw [cps_long_eval e p1 c s hp1 he hs (not_le.mpr hc),
            cps_long_eval e p2 c s hp2 he hs (not_le.mpr hc)]
          exact max_le_max (pyInt_mono (min_le_min hqr hqc)) (le_refl 0)
    | short =>
        rw [cps_short_eval e p1 c s hp1 he hs, cps_short_eval e p2 c s hp2 he hs]
        exact max_le_max (pyInt_mono hqr) (le_refl 0)

/-! Helper lemmas about excursion tracking. -/

theorem update_excursions_fav_le (p : PositionInfo) (x : ℚ) :
    p.max_favorable_pnl ≤ (update_excursions p x).max_favorable_pnl := by
  rw [update_excursions]
  by_cases h1 : x > p.max_favorable_pnl <;> by_cases h2 : x < p.max_adverse_pnl <;>
    simp [h1, h2] <;> linarith

theorem update_excursions_adv_le (p : PositionInfo) (x : ℚ) :
    (update_excursions p x).max_adverse_pnl ≤ p.max_adverse_pnl := by
  rw [update_excursions]
  by_cases h1 : x > p.max_favorable_pnl <;> by_cases h2 : x < p.max_adverse_pnl <;>
    simp [h1, h2] <;> linarith

theorem run_excursions_fav_le (p : PositionInfo) (xs : List ℚ) :
    p.max_favorable_pnl ≤ (run_excursions p xs).max_favorable_pnl := by
  induction xs generalizing p with
  | nil => exact le_refl _
  | cons x xs ih =>
      exact le_trans (update_excursions_fav_le p x) (ih (update_excursions p x))

theorem run_excursions_adv_le (p : PositionInfo) (xs : List ℚ) :
    (run_excursions p xs).max_adverse_pnl ≤ p.max_adverse_pnl := by
  induction xs generalizing p with
  | nil => exact le_refl _
  | cons x xs ih =>
      exact le_trans (ih (update_excursions p x)) (update_excursions_adv_le p x)

/-! Claim theorems. -/

/-- C1 counterexample: at entry price 0 (a non-positive entry price, which
the claim's "for every entry price" includes) the morning exit returns the
action "none", not "close". -/
theorem morning_exit_zero_entry_not_close :
    (evaluate_morning_exit 0 100 .long).1 ≠ "close" := by
  simp [evaluate_morning_exit]

/-- C1 (amended): for every entry price > 0, current price and direction,
`evaluate_morning_exit` returns the action "close" together with the
direction-normalized P&L percentage, regardless of the sign of the P&L. -/
theorem morning_exit_always_close (entry_price current_price : ℚ)
    (d : Direction) (h : 0 < entry_price) :
    evaluate_morning_exit entry_price current_price d =
      ("close", direction_pnl entry_price current_price d, .sessionEndExit) := by
  rw [evaluate_morning_exit, if_neg (not_le.mpr h)]

/-- C1 witness: entry 100, current 95, long: closed with P&L −5%. -/
theorem morning_exit_always_close_witness :
    evaluate_morning_exit 100 95 .long = ("close", -(1/20), .sessionEndExit) := by
  rw [morning_exit_always_close 100 95 .long (by norm_num)]
  norm_num [direction_pnl]

/-- C2 counterexample: for a short with non-positive available cash the
function does not return 0 (the cash constraint only applies to longs):
equity 100000, entry 50, cash 0, 3 slots gives quantity 800. -/
theorem short_sizing_ignores_cash :
    compute_position_size 100000 50 .short 0 3 = 800 ∧
    compute_position_size 100000 50 .short 0 3 ≠ 0 := by
  constructor <;>
    norm_num [compute_position_size, pyInt, HARD_STOP_PCT, RISK_PER_TRADE_PCT]

/-- C2 (amended): for every direction, `compute_position_size` returns 0
whenever equity or entry price is non-positive or `slots_remaining ≤ 0`;
for direction long it additionally returns 0 whenever available cash is
non-positive; and the returned quantity is never negative. -/
theorem position_size_zero_and_nonneg (equity entry_price : ℚ)
    (d : Direction) (available_cash : ℚ) (slots_remaining : ℤ) :
    (equity ≤ 0 ∨ entry_price ≤ 0 ∨ slots_remaining ≤ 0 →
      compute_position_size equity entry_price d available_cash slots_remaining
        = 0) ∧
    (d = .long → available_cash ≤ 0 →
      compute_position_size equity entry_price d available_cash slots_remaining
        = 0) ∧
    0 ≤ compute_position_size equity entry_price d available_cash slots_remaining := by
  refine ⟨?_, ?_, cps_nonneg _ _ _ _ _⟩
  · intro h
    exact cps_guard_zero _ _ _ _ _ (by tauto)
  · rintro rfl hc
    by_cases hg : entry_price ≤ 0 ∨ equity ≤ 0 ∨ slots_remaining ≤ 0
    · exact cps_guard_zero _ _ _ _ _ hg
    · push_neg at hg
      obtain ⟨hp, he, hs⟩ := hg
      have hs' : (0:ℚ) < (slots_remaining : ℚ) := by exact_mod_cast hs
      exact cps_long_nocash _ _ _ _ hp he hs
        (div_nonpos_iff.mpr (Or.inr ⟨hc, le_of_lt hs'⟩))

/-- C2 witness: zero equity forces 0; long with zero cash forces 0; and a
regular long sizing is non-negative. -/
theorem position_size_zero_and_nonneg_witness :
    compute_position_size 0 50 .long 100 3 = 0 ∧
    compute_position_size 100000 50 .long 0 3 = 0 ∧
    0 ≤ compute_position_size 100000 50 .long 30000 3 :=
  ⟨(position_size_zero_and_nonneg 0 50 .long 100 3).1 (Or.inl (by norm_num)),
   (position_size_zero_and_nonneg 100000 50 .long 0 3).2.1 rfl (by norm_num),
   (position_size_zero_and_nonneg 100000 50 .long 30000 3).2.2⟩

/-- C4 (confirmed): for every positive entry and current price, any
direction and any liquidity data, whenever the direction-normalized P&L is
≤ −HARD_STOP_PCT the overnight management returns the hard-stop exit
`(true, pnl, hard stop)` — in particular the stop result stands regardless
of the profit-ceiling inputs, i.e. the stop check has priority. -/
theorem overnight_hard_stop_priority (entry_price current_price : ℚ)
    (d : Direction) (spread_pct recent_volume : Option ℚ)
    (he : 0 < entry_price) (hc : 0 < current_price)
    (hstop : direction_pnl entry_price current_price d ≤ -HARD_STOP_PCT) :
    evaluate_overnight_management entry_price current_price d
      spread_pct recent_volume =
      (true, direction_pnl entry_price current_price d, .hardStop) := by
  have h1 : check_hard_stop entry_price current_price d =
      (true, direction_pnl entry_price current_price d, .hardStop) := by
    rw [check_hard_stop, if_neg (not_le.mpr he)]
    simp [hstop]
  simp [evaluate_overnight_management, h1]

/-- C4 witness: entry 50, current 47.4, long: P&L −0.052 ≤ −0.05, so the
hard stop fires (with empty liquidity data in scope for the ceiling). -/
theorem overnight_hard_stop_priority_witness :
    evaluate_overnight_management 50 (237/5) .long none none =
      (true, -(13/250), .hardStop) := by
  rw [overnight_hard_stop_priority 50 (237/5) .long none none
    (by norm_num) (by norm_num)
    (by norm_num [direction_pnl, HARD_STOP_PCT])]
  norm_num [direction_pnl]

/-- C10 (confirmed): with a non-positive entry price every management-phase
evaluator is total and signals no exit: the stop and ceiling checks return
`(false, 0, no entry price)` and the morning exit returns `("none", 0, no
position)`. -/
theorem nonpositive_entry_total_no_exit (entry_price current_price : ℚ)
    (d : Direction) (spread_pct recent_volume : Option ℚ)
    (h : entry_price ≤ 0) :
    check_hard_stop entry_price current_price d = (false, 0, .noEntryPrice) ∧
    check_profit_ceiling entry_price current_price d spread_pct recent_volume
      = (false, 0, .noEntryPrice) ∧
    evaluate_morning_exit entry_price current_price d
      = ("none", 0, .noPosition) := by
  refine ⟨?_, ?_, ?_⟩ <;>
    simp [check_hard_stop, check_profit_ceiling, evaluate_morning_exit, h]

/-- C10 witness at entry 0, current 100, long, no liquidity data. -/
theorem nonpositive_entry_total_no_exit_witness :
    check_hard_stop 0 100 .long = (false, 0, .noEntryPrice) ∧
    check_profit_ceiling 0 100 .long none none = (false, 0, .noEntryPrice) ∧
    evaluate_morning_exit 0 100 .long = ("none", 0, .noPosition) :=
  nonpositive_entry_total_no_exit 0 100 .long none none (by norm_num)

/-- C3 (confirmed): for positive prices with an open slot, a Friday entry
signal never returns direction short; it returns `(true, long, …)` exactly
when the move from the anchor is ≤ −EXTREME_MOVE_PCT, and `(false, none, …)`
otherwise. -/
theorem friday_entry_no_short (symbol : String)
    (anchor_close current_price : ℚ) (count : ℕ)
    (ha : 0 < anchor_close) (hc : 0 < current_price)
    (hcount : count < MAX_CONCURRENT_POSITIONS) :
    (evaluate_entry_signal symbol anchor_close current_price true count).2.1
        ≠ some .short ∧
    ((evaluate_entry_signal symbol anchor_close current_price true count).1
        = true ↔
      (current_price - anchor_close) / anchor_close ≤ -EXTREME_MOVE_PCT) ∧
    ((current_price - anchor_close) / anchor_close ≤ -EXTREME_MOVE_PCT →
      (evaluate_entry_signal symbol anchor_close current_price true count).2.1
        = some .long) ∧
    (¬ (current_price - anchor_close) / anchor_close ≤ -EXTREME_MOVE_PCT →
      (evaluate_entry_signal symbol anchor_close current_price true count).1
          = false ∧
      (evaluate_entry_signal symbol anchor_close current_price true count).2.1
          = none) := by
  have h1 : ¬ (anchor_close ≤ 0 ∨ current_price ≤ 0) := by
    push_neg
    exact ⟨ha, hc⟩
  have h2 : ¬ count ≥ MAX_CONCURRENT_POSITIONS := not_le.mpr hcount
  by_cases hm : (current_price - anchor_close) / anchor_close ≤ -EXTREME_MOVE_PCT <;>
    simp [evaluate_entry_signal, h1, h2, hm]

/-- C3 witness: anchor 100, current 107.5 on a Friday (a +7.5% move):
no entry and no direction despite breaching +7%. -/
theorem friday_entry_no_short_witness :
    (evaluate_entry_signal "AAPL" 100 (215/2) true 0).1 = false ∧
    (evaluate_entry_signal "AAPL" 100 (215/2) true 0).2.1 = none :=
  (friday_entry_no_short "AAPL" 100 (215/2) 0 (by norm_num) (by norm_num)
    (by norm_num [MAX_CONCURRENT_POSITIONS])).2.2.2
    (by norm_num [EXTREME_MOVE_PCT])

/-- C5 (confirmed): for a positive entry price, `check_profit_ceiling`
takes profit exactly when the direction-normalized P&L reaches the ceiling
AND every supplied liquidity signal passes its threshold (spread small
enough, recent volume large enough); absent signals are not checked. -/
theorem profit_ceiling_iff (entry_price current_price : ℚ) (d : Direction)
    (spread_pct recent_volume : Option ℚ) (he : 0 < entry_price) :
    (check_profit_ceiling entry_price current_price d spread_pct
        recent_volume).1 = true ↔
      (PROFIT_CEILING_PCT ≤ direction_pnl entry_price current_price d ∧
       (∀ s, spread_pct = some s → s ≤ PROFIT_EXIT_MAX_SPREAD_PCT) ∧
       (∀ v, recent_volume = some v → PROFIT_EXIT_MIN_VOLUME ≤ v)) := by
  rw [check_profit_ceiling, if_neg (not_le.mpr he)]
  by_cases h1 : direction_pnl entry_price current_price d < PROFIT_CEILING_PCT
  · rw [if_pos h1]
    exact iff_of_false (by simp) (fun hr => (not_le.mpr h1) hr.1)
  · rw [if_neg h1]
    by_cases h2 : spread_too_wide spread_pct
    · rw [if_pos h2]
      refine iff_of_false (by simp) (fun hr => ?_)
      have hex : ∃ s, spread_pct = some s ∧ PROFIT_EXIT_MAX_SPREAD_PCT < s := by
        cases spread_pct with
        | none => simp [spread_too_wide] at h2
        | some s => exact ⟨s, rfl, by simpa [spread_too_wide] using h2⟩
      obtain ⟨s, hsp, hgt⟩ := hex
      exact absurd (hr.2.1 s hsp) (not_le.mpr hgt)
    · rw [if_neg h2]
      by_cases h3 : volume_too_low recent_volume
      · rw [if_pos h3]
        refine iff_of_false (by simp) (fun hr => ?_)
        have hex : ∃ v, recent_volume = some v ∧ v < PROFIT_EXIT_MIN_VOLUME := by
          cases recent_volume with
          | none => simp [volume_too_low] at h3
          | some v => exact ⟨v, rfl, by simpa [volume_too_low] using h3⟩
        obtain ⟨v, hv, hlt⟩ := hex
        exact absurd (hr.2.2 v hv) (not_le.mpr hlt)
      · rw [if_neg h3]
        refine iff_of_true rfl ⟨not_lt.mp h1, ?_, ?_⟩
        · intro s hsp
          rw [hsp] at h2
          simpa [spread_too_wide, not_lt] using h2
        · intro v hv
          rw [hv] at h3
          simpa [volume_too_low, not_lt] using h3

/-- C5 witness: entry 50, current 51.3, long (P&L 2.6% ≥ 2.5%) with spread
0.6% > 0.4%: the ceiling is reached but the exit is deferred. -/
theorem profit_ceiling_iff_witness :
    (check_profit_ceiling 50 (513/10) .long (some (3/500)) none).1 = false := by
  have h := profit_ceiling_iff 50 (513/10) .long (some (3/500)) none (by norm_num)
  rw [Bool.eq_false_iff]
  intro ht
  obtain ⟨-, hs, -⟩ := h.mp ht
  exact absurd (hs (3/500) rfl) (by norm_num [PROFIT_EXIT_MAX_SPREAD_PCT])

/-- C6 (confirmed): for a long with strictly positive equity, entry price,
cash and slots, the quantity returned by `compute_position_size` respects
the cash constraint (notional at most the per-slot cash) and the risk
constraint (implied stop loss at most the per-trade risk budget). -/
theorem long_sizing_constraints (equity entry_price available_cash : ℚ)
    (slots_remaining : ℤ) (he : 0 < equity) (hp : 0 < entry_price)
    (hc : 0 < available_cash) (hs : 0 < slots_remaining) :
    (compute_position_size equity entry_price .long available_cash
        slots_remaining : ℚ) * entry_price ≤
      available_cash / (slots_remaining : ℚ) ∧
    (compute_position_size equity entry_price .long available_cash
        slots_remaining : ℚ) * entry_price * HARD_STOP_PCT ≤
      equity * RISK_PER_TRADE_PCT := by
  have hH : (0:ℚ) < HARD_STOP_PCT := by norm_num [HARD_STOP_PCT]
  have hR : (0:ℚ) < RISK_PER_TRADE_PCT := by norm_num [RISK_PER_TRADE_PCT]
  have hs' : (0:ℚ) < (slots_remaining : ℚ) := by exact_mod_cast hs
  have hcs : 0 < available_cash / (slots_remaining : ℚ) := div_pos hc hs'
  set A := equity * RISK_PER_TRADE_PCT / (entry_price * HARD_STOP_PCT) with hA
  set B := available_cash / (slots_remaining : ℚ) / entry_price with hB
  have hqr : 0 < A := div_pos (mul_pos he hR) (mul_pos hp hH)
  have hqc : 0 < B := div_pos hcs hp
  have hmin : 0 ≤ min A B := le_min (le_of_lt hqr) (le_of_lt hqc)
  have hval := cps_long_eval equity entry_price available_cash slots_remaining
    hp he hs (not_le.mpr hcs)
  rw [← hA, ← hB] at hval
  rw [hval, max_eq_left (pyInt_nonneg hmin)]
  constructor
  · have h1 : (pyInt (min A B) : ℚ) ≤ B :=
      le_trans (pyInt_le_self hmin) (min_le_right _ _)
    calc (pyInt (min A B) : ℚ) * entry_price ≤ B * entry_price :=
          mul_le_mul_of_nonneg_right h1 (le_of_lt hp)
      _ = available_cash / (slots_remaining : ℚ) := by
          rw [hB]
          exact div_mul_cancel₀ _ (ne_of_gt hp)
  · have h2 : (pyInt (min A B) : ℚ) ≤ A :=
      le_trans (pyInt_le_self hmin) (min_le_left _ _)
    calc (pyInt (min A B) : ℚ) * entry_price * HARD_STOP_PCT
        = (pyInt (min A B) : ℚ) * (entry_price * HARD_STOP_PCT) := by ring
      _ ≤ A * (entry_price * HARD_STOP_PCT) :=
          mul_le_mul_of_nonneg_right h2 (le_of_lt (mul_pos hp hH))
      _ = equity * RISK_PER_TRADE_PCT := by
          rw [hA]
          exact div_mul_cancel₀ _ (ne_of_gt (mul_pos hp hH))

/-- C6 witness: equity 100000, entry 50, cash 30000, 3 slots: quantity 200,
which satisfies both constraints. -/
theorem long_sizing_constraints_witness :
    compute_position_size 100000 50 .long 30000 3 = 200 ∧
    (compute_position_size 100000 50 .long 30000 3 : ℚ) * 50 ≤
      30000 / ((3:ℤ) : ℚ) ∧
    (compute_position_size 100000 50 .long 30000 3 : ℚ) * 50 * HARD_STOP_PCT ≤
      100000 * RISK_PER_TRADE_PCT := by
  have h := long_sizing_constraints 100000 50 30000 3
    (by norm_num) (by norm_num) (by norm_num) (by norm_num)
  refine ⟨?_, h.1, h.2⟩
  norm_num [compute_position_size, pyInt, HARD_STOP_PCT, RISK_PER_TRADE_PCT]

/-- C7 counterexample: with equity, cash, slots and direction fixed, the
quantity at entry price 0 is 0 while at the larger entry price 50 it is
200, so the function is not non-increasing in entry price on all inputs. -/
theorem position_size_not_antitone_at_zero_price :
    ¬ (compute_position_size 100000 50 .long 30000 3 ≤
        compute_position_size 100000 0 .long 30000 3) := by
  norm_num [compute_position_size, pyInt, HARD_STOP_PCT, RISK_PER_TRADE_PCT]

/-- C7 (amended): holding direction, available cash and slots fixed,
`compute_position_size` is monotonically non-decreasing in equity, it is
monotonically non-increasing in entry price over strictly positive entry
prices, and it always returns an integer ≥ 0. -/
theorem position_size_monotonicity (d : Direction) (available_cash : ℚ)
    (slots_remaining : ℤ) :
    (∀ e1 e2 p : ℚ, e1 ≤ e2 →
      compute_position_size e1 p d available_cash slots_remaining ≤
        compute_position_size e2 p d available_cash slots_remaining) ∧
    (∀ e p1 p2 : ℚ, 0 < p1 → p1 ≤ p2 →
      compute_position_size e p2 d available_cash slots_remaining ≤
        compute_position_size e p1 d available_cash slots_remaining) ∧
    (∀ e p : ℚ,
      0 ≤ compute_position_size e p d available_cash slots_remaining) :=
  ⟨fun _ _ p h => cps_mono_equity p d _ _ h,
   fun e _ _ hp1 h => cps_anti_price e d _ _ hp1 h,
   fun e p => cps_nonneg e p d _ _⟩

/-- C7 witness: monotone in equity at 100000 ≤ 200000, antitone in entry
price at 0 < 50 ≤ 60, and non-negative, all at cash 30000 and 3 slots. -/
theorem position_size_monotonicity_witness :
    compute_position_size 100000 50 .long 30000 3 ≤
      compute_position_size 200000 50 .long 30000 3 ∧
    compute_position_size 100000 60 .long 30000 3 ≤
      compute_position_size 100000 50 .long 30000 3 ∧
    0 ≤ compute_position_size 100000 50 .long 30000 3 :=
  ⟨(position_size_monotonicity .long 30000 3).1 100000 200000 50 (by norm_num),
   (position_size_monotonicity .long 30000 3).2.1 100000 50 60
     (by norm_num) (by norm_num),
   (position_size_monotonicity .long 30000 3).2.2 100000 50⟩

/-- `run_excursions` splits across list concatenation. -/
theorem run_excursions_append (p : PositionInfo) (l1 l2 : List ℚ) :
    run_excursions p (l1 ++ l2) = run_excursions (run_excursions p l1) l2 := by
  simp [run_excursions, List.foldl_append]

/-- C9 (confirmed): across any sequence of `update_excursions` calls on one
position record with arbitrary P&L readings, the `max_favorable_pnl` after
any later prefix is at least the value after any earlier prefix, and the
`max_adverse_pnl` after any later prefix is at most the value after any
earlier prefix (the initial all-zero record is the `n = 0` prefix). -/
theorem excursions_monotone (p : PositionInfo) (xs : List ℚ) (n m : ℕ)
    (h : n ≤ m) :
    (run_excursions p (xs.take n)).max_favorable_pnl ≤
      (run_excursions p (xs.take m)).max_favorable_pnl ∧
    (run_excursions p (xs.take m)).max_adverse_pnl ≤
      (run_excursions p (xs.take n)).max_adverse_pnl := by
  have hsplit : xs.take n ++ (xs.take m).drop n = xs.take m := by
    have hx := List.take_append_drop n (xs.take m)
    rwa [List.take_take, min_eq_left h] at hx
  constructor
  · calc (run_excursions p (xs.take n)).max_favorable_pnl
        ≤ (run_excursions (run_excursions p (xs.take n))
            ((xs.take m).drop n)).max_favorable_pnl :=
          run_excursions_fav_le _ _
      _ = (run_excursions p (xs.take m)).max_favorable_pnl := by
          rw [← run_excursions_append, hsplit]
  · calc (run_excursions p (xs.take m)).max_adverse_pnl
        = (run_excursions (run_excursions p (xs.take n))
            ((xs.take m).drop n)).max_adverse_pnl := by
          rw [← run_excursions_append, hsplit]
      _ ≤ (run_excursions p (xs.take n)).max_adverse_pnl :=
          run_excursions_adv_le _ _

/-- C9 witness: a fresh zero-excursion record fed the readings
[+1%, −2%]: after the longer prefix the favorable extreme is no smaller
and the adverse extreme is no larger than after the shorter prefix. -/
theorem excursions_monotone_witness :
    (run_excursions (PositionInfo.mk .long 100 10 100 0 0)
        ([1/100, -(1/50)].take 1)).max_favorable_pnl ≤
      (run_excursions (PositionInfo.mk .long 100 10 100 0 0)
        ([1/100, -(1/50)].take 2)).max_favorable_pnl ∧
    (run_excursions (PositionInfo.mk .long 100 10 100 0 0)
        ([1/100, -(1/50)].take 2)).max_adverse_pnl ≤
      (run_excursions (PositionInfo.mk .long 100 10 100 0 0)
        ([1/100, -(1/50)].take 1)).max_adverse_pnl :=
  excursions_monotone (PositionInfo.mk .long 100 10 100 0 0)
    [1/100, -(1/50)] 1 2 (by norm_num)

/-- C8 (confirmed): one ledger update with an empty trade list increments
only the session counters (`total_sessions` and `sessions_no_trades`) and
appends one empty entry to the bounded session log; every win/loss counter,
directional counter, P&L total, best/worst record, average, streak and
excursion average is unchanged. -/
theorem empty_session_preserves_totals (session_date : String)
    (perf0 : Performance) :
    (update_performance_after_session session_date [] perf0).total_sessions
        = perf0.total_sessions + 1 ∧
    (update_performance_after_session session_date [] perf0).sessions_with_trades
        = perf0.sessions_with_trades ∧
    (update_performance_after_session session_date [] perf0).sessions_no_trades
        = perf0.sessions_no_trades + 1 ∧
    (update_performance_after_session session_date [] perf0).total_trades
        = perf0.total_trades ∧
    (update_performance_after_session session_date [] perf0).wins = perf0.wins ∧
    (update_performance_after_session session_date [] perf0).losses
        = perf0.losses ∧
    (update_performance_after_session session_date [] perf0).breakeven
        = perf0.breakeven ∧
    (update_performance_after_session session_date [] perf0).long_trades
        = perf0.long_trades ∧
    (update_performance_after_session session_date [] perf0).long_wins
        = perf0.long_wins ∧
    (update_performance_after_session session_date [] perf0).short_trades
        = perf0.short_trades ∧
    (update_performance_after_session session_date [] perf0).short_wins
        = perf0.short_wins ∧
    (update_performance_after_session session_date [] perf0).total_net_pnl_pct
        = perf0.total_net_pnl_pct ∧
    (update_performance_after_session session_date [] perf0).total_net_pnl_dollars
        = perf0.total_net_pnl_dollars ∧
    (update_performance_after_session session_date [] perf0).best_trade_pnl_pct
        = perf0.best_trade_pnl_pct ∧
    (update_performance_after_session session_date [] perf0).best_trade_symbol
        = perf0.best_trade_symbol ∧
    (update_performance_after_session session_date [] perf0).worst_trade_pnl_pct
        = perf0.worst_trade_pnl_pct ∧
    (update_performance_after_session session_date [] perf0).worst_trade_symbol
        = perf0.worst_trade_symbol ∧
    (update_performance_after_session session_date [] perf0).avg_win_pct
        = perf0.avg_win_pct ∧
    (update_performance_after_session session_date [] perf0).avg_loss_pct
        = perf0.avg_loss_pct ∧
    (update_performance_after_session session_date [] perf0).avg_mfe_pct
        = perf0.avg_mfe_pct ∧
    (update_performance_after_session session_date [] perf0).avg_mae_pct
        = perf0.avg_mae_pct ∧
    (update_performance_after_session session_date [] perf0).current_streak
        = perf0.current_streak ∧
    (update_performance_after_session session_date [] perf0).best_streak
        = perf0.best_streak ∧
    (update_performance_after_session session_date [] perf0).worst_streak
        = perf0.worst_streak ∧
    (update_performance_after_session session_date [] perf0).win_sum
        = perf0.win_sum ∧
    (update_performance_after_session session_date [] perf0).loss_sum
        = perf0.loss_sum ∧
    (update_performance_after_session session_date [] perf0).session_log
        = trim_log (perf0.session_log ++
            [SessionLogEntry.mk session_date 0 0 0 none]) :=
  ⟨rfl, rfl, rfl, rfl, rfl, rfl, rfl, rfl, rfl, rfl, rfl, rfl, rfl, rfl,
   rfl, rfl, rfl, rfl, rfl, rfl, rfl, rfl, rfl, rfl, rfl, rfl, rfl⟩
